import Mathlib

/-!
Verification of the concurrent detection-scheduling and admission-control
subsystem of the StreamCameraSecurity repository.

The Python sources are shallowly embedded as pure Lean functions over explicit
state records:
  - `StreamService` (src/services.py, lines 160-261): camera stream admission,
    with the module-level `active_streams` set modelled as a duplicate-free list
    and the database tables modelled as lists of rows.  Database commits are
    modelled as succeeding unless the claim under study concerns commit failure.
  - `AsyncFaceDetectionService.process_multiple_cameras_async`
    (src/services.py, lines 440-469): the per-batch task runner, with the
    black-box frame capture / detector pipeline abstracted as a per-camera
    outcome oracle, exactly as the spec treats `FrameSource` and `Detector`.
  - `DetectionService.save_detection_result` / `get_detection_results`
    (src/services.py, lines 263-331) together with the Redis-backed
    `DetectionCache` (src/cache.py), with the cache modelled as an association
    list of page keys plus an optional count key.
  - `schedule_detection` and `async_face_detection_loop` (src/app.py,
    lines 308-364 and 512-564), the schedule creation endpoint and the
    per-schedule control loop, with wall-clock time abstracted into a tick
    fuel counter and the per-tick environment (external cancellation,
    unrecoverable exception) supplied as input.
-/

namespace StreamCameraSecurity

/-- Configuration surface (src/config.py): the two capacity limits the claims
refer to.  Both are environment-configurable, so they are carried as data. -/
structure Config where
  MAX_CAMERAS_STREAM : Nat
  MAX_CAMERAS_DETECTION : Nat
deriving DecidableEq, Repr

/-- Default configuration values from src/config.py lines 30-31. -/
def Config.default : Config :=
  { MAX_CAMERAS_STREAM := 20, MAX_CAMERAS_DETECTION := 20 }

/-- Camera row (src/models.py, class Camera).  Timestamps and relationship
fields play no role in the claims and are omitted. -/
structure Camera where
  id : String
  name : String
  ip : String
  location : String
  status : String
deriving DecidableEq, Repr

/-- StreamSession row (src/models.py, class StreamSession).  `started_at` and
the surrogate integer primary key play no role in the claims. -/
structure StreamSession where
  camera_id : String
  session_id : String
  ended_at : Option Nat
  status : String
deriving DecidableEq, Repr

/-- State touched by `StreamService` (src/services.py): the cameras table, the
module-level in-memory `active_streams` set (a Python `set`, modelled as a
duplicate-free list), and the stream_sessions table. -/
structure StreamState where
  cameras : List Camera
  active_streams : List String
  sessions : List StreamSession
deriving DecidableEq, Repr

/-- `Camera.query.get(camera_id) is not None` (src/services.py line 186). -/
def camera_exists (s : StreamState) (camera_id : String) : Bool :=
  s.cameras.any (fun c => c.id = camera_id)

/-- `StreamService.start_camera_stream` (src/services.py lines 181-215),
happy path: the database commit succeeds.  `session_uuid` stands for the
`uuid.uuid4()` value.  Returns the success flag together with the new state.
The capacity test on line 191 is
`len(active_streams) >= MAX_CAMERAS_STREAM and camera_id not in active_streams`;
on line 195 `set.add` leaves the set unchanged when the id is already present,
and lines 198-204 always append a fresh StreamSession row. -/
def start_camera_stream (cfg : Config) (s : StreamState) (camera_id : String)
    (session_uuid : String) : Bool × StreamState :=
  if ¬ camera_exists s camera_id then
    (false, s)
  else if cfg.MAX_CAMERAS_STREAM ≤ s.active_streams.length ∧
      camera_id ∉ s.active_streams then
    (false, s)
  else
    let active := if camera_id ∈ s.active_streams then s.active_streams
      else s.active_streams ++ [camera_id]
    let sess : StreamSession :=
      { camera_id := camera_id, session_id := session_uuid,
        ended_at := none, status := "active" }
    (true, { s with active_streams := active, sessions := s.sessions ++ [sess] })

/-- `StreamService.stop_camera_stream` (src/services.py lines 217-246), happy
path: discard from the active set, close every open session of the camera.
`now` stands for `datetime.utcnow()`. -/
def stop_camera_stream (now : Nat) (s : StreamState) (camera_id : String) :
    Bool × StreamState :=
  let active := s.active_streams.filter (fun cid => cid ≠ camera_id)
  let sessions := s.sessions.map (fun sess =>
    if sess.camera_id = camera_id ∧ sess.status = "active" then
      { sess with ended_at := some now, status := "stopped" }
    else sess)
  (true, { s with active_streams := active, sessions := sessions })

/-- A concrete camera row used by witnesses and counterexamples. -/
def cam1 : Camera :=
  { id := "cam_1", name := "Camera 1", ip := "192.168.1.2",
    location := "Area 1", status := "offline" }

/-- A second concrete camera row. -/
def cam2 : Camera :=
  { id := "cam_2", name := "Camera 2", ip := "192.168.1.3",
    location := "Area 1", status := "offline" }

/-- Stream state in which camera cam_1 already holds a slot with one open
session. -/
def streamStateHolding : StreamState :=
  { cameras := [cam1, cam2],
    active_streams := ["cam_1"],
    sessions := [{ camera_id := "cam_1", session_id := "sess-1",
                   ended_at := none, status := "active" }] }

/-! Fine-grained interleaving model of `start_camera_stream`.  The Python
method runs on a Flask worker thread with no lock: the capacity test
(src/services.py lines 186-192, a pure read of shared state) and the slot
reservation plus session insert (lines 195-204, a write) are separate steps
between which the thread can be preempted.  Each in-flight call is a
`PendingStart`; a schedule of thread indices fixes the interleaving. -/

/-- An in-flight `start_camera_stream` call: the camera id and session uuid of
the request, whether the check step has run and what it concluded, and the
final outcome once the call returns. -/
structure PendingStart where
  cid : String
  session_uuid : String
  checked : Bool
  passed : Bool
  result : Option Bool
deriving DecidableEq, Repr

/-- A fresh in-flight call for camera `cid`. -/
def PendingStart.mk0 (cid session_uuid : String) : PendingStart :=
  { cid := cid, session_uuid := session_uuid,
    checked := false, passed := false, result := none }

/-- The read half of `start_camera_stream`: the camera lookup (line 186) and
the capacity test (line 191), evaluated against the shared state as it is at
that instant. -/
def start_check (cfg : Config) (s : StreamState) (t : PendingStart) : PendingStart :=
  if ¬ camera_exists s t.cid then
    { t with checked := true, passed := false, result := some false }
  else if cfg.MAX_CAMERAS_STREAM ≤ s.active_streams.length ∧
      t.cid ∉ s.active_streams then
    { t with checked := true, passed := false, result := some false }
  else
    { t with checked := true, passed := true }

/-- The write half of `start_camera_stream`: `active_streams.add` (line 195)
and the StreamSession insert plus commit (lines 198-204). -/
def start_act (s : StreamState) (t : PendingStart) : StreamState × PendingStart :=
  let active := if t.cid ∈ s.active_streams then s.active_streams
    else s.active_streams ++ [t.cid]
  let sess : StreamSession :=
    { camera_id := t.cid, session_id := t.session_uuid,
      ended_at := none, status := "active" }
  ({ s with active_streams := active, sessions := s.sessions ++ [sess] },
   { t with result := some true })

/-- One scheduling quantum of an in-flight call: run its check if it has not
run, otherwise its write if the check passed; finished calls do nothing. -/
def thread_step (cfg : Config) (s : StreamState) (t : PendingStart) :
    StreamState × PendingStart :=
  if t.result.isSome then (s, t)
  else if ¬ t.checked then (s, start_check cfg s t)
  else start_act s t

/-- Run the in-flight calls under the interleaving given by a list of thread
indices (indices out of range are skipped). -/
def run_interleaving (cfg : Config) :
    List Nat → StreamState × List PendingStart → StreamState × List PendingStart
  | [], env => env
  | i :: rest, (s, ts) =>
    match ts[i]? with
    | none => run_interleaving cfg rest (s, ts)
    | some t =>
      let r := thread_step cfg s t
      run_interleaving cfg rest (r.1, ts.set i r.2)

/-! Sequential executions of the stream service, for the safety invariant and
the admission counting property. -/

/-- A stream-service request. -/
inductive StreamOp where
  | start (cid : String) (session_uuid : String)
  | stop (cid : String)
deriving DecidableEq, Repr

/-- Apply one request atomically (the whole Python call runs without
preemption). -/
def apply_stream_op (cfg : Config) (now : Nat) (s : StreamState) :
    StreamOp → StreamState
  | .start cid session_uuid => (start_camera_stream cfg s cid session_uuid).2
  | .stop cid => (stop_camera_stream now s cid).2

/-- Run a sequence of requests one at a time. -/
def run_stream_ops (cfg : Config) (now : Nat) (s : StreamState) :
    List StreamOp → StreamState
  | [] => s
  | op :: rest => run_stream_ops cfg now (apply_stream_op cfg now s op) rest

/-- Run a sequence of `start_camera_stream` calls one at a time, counting how
many succeed; each call uses its camera id as the session uuid. -/
def run_starts (cfg : Config) (s : StreamState) : List String → Nat × StreamState
  | [] => (0, s)
  | cid :: rest =>
    let r := start_camera_stream cfg s cid cid
    let r2 := run_starts cfg r.2 rest
    ((if r.1 then 1 else 0) + r2.1, r2.2)

/-! Batch detection model (`AsyncFaceDetectionService`, src/services.py
lines 333-469).  The spec treats frame capture and the detector as black
boxes, so a single per-camera task (`_process_single_camera` run through
`process_camera_frame_async`) is abstracted as an outcome oracle: it either
returns a result payload (frame captured, faces found, image and row saved),
returns None (capture failure, no faces, or an exception caught inside
`_process_single_camera`), or raises out of the task body. -/

/-- The payload dict returned by `_process_single_camera` on success
(src/services.py lines 400-406). -/
structure DetectionResultDict where
  camera_id : String
  timestamp : Nat
  image_path : String
  faces_count : Nat
  schedule_id : Option String
deriving DecidableEq, Repr

/-- The behaviour of one per-camera detection task. -/
inductive RawOutcome where
  | detected (r : DetectionResultDict)
  | noDetection
  | raised
deriving DecidableEq, Repr

/-- `process_camera_frame_async` (src/services.py lines 342-358): await the
worker; the except handler catches any exception the task raises, logs it,
and returns None. -/
def process_camera_frame_async (raw : RawOutcome) : Option DetectionResultDict :=
  match raw with
  | .detected r => some r
  | .noDetection => none
  | .raised => none

/-- `process_multiple_cameras_async` (src/services.py lines 440-469).
One task per camera id; `asyncio.gather(..., return_exceptions=True)` under
`asyncio.wait_for` with the batch deadline.  When the deadline expires the
`asyncio.TimeoutError` handler returns the empty list (line 466); otherwise
the loop at lines 455-461 keeps exactly the dict results, dropping None
results and logged exceptions.  `timed_out` records whether the deadline
expired before the gather resolved. -/
def process_multiple_cameras_async (raw : String → RawOutcome) (timed_out : Bool)
    (camera_ids : List String) : List DetectionResultDict :=
  if timed_out then []
  else (camera_ids.map (fun cid => process_camera_frame_async (raw cid))).filterMap id

/-! Detection persistence and the detection-listing cache
(`DetectionService`, src/services.py lines 263-331, and `DetectionCache`,
src/cache.py lines 231-260).  The Redis keys `detections:results:page:p` are
modelled as an association list from page number to cached page, and the key
`detections:count` as an optional cached total.  The cache is taken to be
available (`cache_manager.is_available`); claims C9 and C10 are about the
invalidation discipline, not about Redis outages. -/

/-- Detection row (src/models.py, class Detection).  The surrogate integer
primary key and `created_at` play no role in the claims. -/
structure DetectionRow where
  camera_id : String
  timestamp : Nat
  image_path : String
  faces_count : Nat
  test_mode : Bool
  real_camera : Bool
  schedule_id : Option String
deriving DecidableEq, Repr

/-- The detection-related cache keys. -/
structure DetCacheState where
  detection_pages : List (Nat × List DetectionRow)
  detection_count : Option Nat
deriving DecidableEq, Repr

/-- `DetectionCache.invalidate_detection_results` (src/cache.py lines 246-250):
delete every `detections:results:*` key and the `detections:count` key. -/
def invalidate_detection_results (_c : DetCacheState) : DetCacheState :=
  { detection_pages := [], detection_count := none }

/-- Store the page key `detections:results:page:p`
(`DetectionCache.set_detection_results`, src/cache.py lines 240-244). -/
def set_detection_results (c : DetCacheState) (page : Nat)
    (results : List DetectionRow) : DetCacheState :=
  { c with detection_pages :=
      (page, results) :: c.detection_pages.filter (fun e => e.1 ≠ page) }

/-- State touched by `DetectionService`: the detections table and the
detection cache keys. -/
structure DetState where
  detections : List DetectionRow
  cache : DetCacheState
deriving DecidableEq, Repr

/-- Insert a row into a list that is sorted by descending timestamp. -/
def insert_by_timestamp_desc (d : DetectionRow) :
    List DetectionRow → List DetectionRow
  | [] => [d]
  | e :: rest =>
    if e.timestamp ≤ d.timestamp then d :: e :: rest
    else e :: insert_by_timestamp_desc d rest

/-- `Detection.query.order_by(Detection.timestamp.desc())` (src/services.py
line 281); the order among equal timestamps is not specified by the source. -/
def sort_by_timestamp_desc : List DetectionRow → List DetectionRow
  | [] => []
  | d :: rest => insert_by_timestamp_desc d (sort_by_timestamp_desc rest)

/-- `query.paginate(page, per_page)` item slice: pages are 1-based. -/
def paginate_items (page per_page : Nat) (l : List DetectionRow) : List DetectionRow :=
  (l.drop ((page - 1) * per_page)).take per_page

/-- `DetectionService.get_detection_results` (src/services.py lines 266-301),
happy path: the database read succeeds.  Returns `(items, total)` and the new
state (the fallback path fills the cache when `use_cache` is set). -/
def get_detection_results (page per_page : Nat) (use_cache : Bool)
    (st : DetState) : (List DetectionRow × Nat) × DetState :=
  let cached_results := if use_cache then st.cache.detection_pages.lookup page else none
  let cached_count := if use_cache then st.cache.detection_count else none
  match cached_results, cached_count with
  | some rs, some cnt => ((rs, cnt), st)
  | _, _ =>
    let results := paginate_items page per_page (sort_by_timestamp_desc st.detections)
    let total := st.detections.length
    let st1 :=
      if use_cache then
        { st with cache :=
            { set_detection_results st.cache page results with
                detection_count := some total } }
      else st
    ((results, total), st1)

/-- `DetectionService.save_detection_result` (src/services.py lines 303-331).
`commit_succeeds` records whether `db.session.commit()` succeeds; on failure
the except handler rolls the session back (no partial row) and returns False
without touching the cache; on success the detection cache is invalidated and
True is returned. -/
def save_detection_result (commit_succeeds : Bool) (st : DetState)
    (camera_id : String) (timestamp : Nat) (image_path : String)
    (faces_count : Nat) (test_mode : Bool) (real_camera : Bool)
    (schedule_id : Option String) : Bool × DetState :=
  let detection : DetectionRow :=
    { camera_id := camera_id, timestamp := timestamp, image_path := image_path,
      faces_count := faces_count, test_mode := test_mode,
      real_camera := real_camera, schedule_id := schedule_id }
  if commit_succeeds then
    (true, { detections := st.detections ++ [detection],
             cache := invalidate_detection_results st.cache })
  else
    (false, st)

/-! Schedule creation (`schedule_detection`, src/app.py lines 308-364) and the
camera directory with its cache (`CameraService.get_all_cameras`,
src/services.py lines 21-42, over `CameraCache`, src/cache.py lines 168-211). -/

/-- DetectionSchedule row (src/models.py, class DetectionSchedule).
`camera_ids` is stored as a JSON string in the source; it round-trips through
`set_camera_ids`/`get_camera_ids`, so it is carried directly as a list.
Times are abstract instants. -/
structure DetectionSchedule where
  id : String
  camera_ids : List String
  duration : Int
  status : String
  start_time : Nat
  end_time : Option Nat
deriving DecidableEq, Repr

/-- State touched by `schedule_detection`: the cameras table, the
`cameras:all` cache key, and the detection_schedules table. -/
structure SchedAppState where
  cameras : List Camera
  cameras_all_cache : Option (List Camera)
  schedules : List DetectionSchedule
deriving DecidableEq, Repr

/-- `CameraService.get_all_cameras` (src/services.py lines 21-42), happy path:
the database read succeeds.  With `use_cache`, a cached camera map is returned
when it is present and truthy (a non-empty dict); otherwise the table is read
and, with `use_cache`, stored back into the cache. -/
def get_all_cameras (st : SchedAppState) (use_cache : Bool) :
    List Camera × SchedAppState :=
  match (if use_cache then st.cameras_all_cache else none) with
  | some cached =>
    if cached ≠ [] then (cached, st)
    else
      (st.cameras,
       if use_cache then { st with cameras_all_cache := some st.cameras } else st)
  | none =>
    (st.cameras,
     if use_cache then { st with cameras_all_cache := some st.cameras } else st)

/-- Response of the `schedule_detection` endpoint: a 400 validation error or
the fresh schedule id. -/
inductive ScheduleResp where
  | err (msg : String)
  | ok (schedule_id : String)
deriving DecidableEq, Repr

/-- `schedule_detection` (src/app.py lines 308-364), happy path for the store:
the commit succeeds.  The request body is modelled by `camera_ids` (an absent
or empty `camera_ids` field is falsy for `validate_request_data`, so both
collapse to the empty list) and an integer `duration` (the `isinstance` check
is reflected in the type).  `fresh_id` stands for the generated schedule id
and `now` for the creation instant.  The camera-existence check on lines
337-338 goes through `CameraService.get_all_cameras()` with its default
`use_cache=True`. -/
def schedule_detection (cfg : Config) (st : SchedAppState)
    (camera_ids : List String) (duration : Int) (fresh_id : String)
    (now : Nat) : ScheduleResp × SchedAppState :=
  if camera_ids = [] then
    (.err "missing required field camera_ids", st)
  else if cfg.MAX_CAMERAS_DETECTION < camera_ids.length then
    (.err "too many cameras", st)
  else if duration < 1 ∨ 120 < duration then
    (.err "duration must be between 1 and 120 minutes", st)
  else
    let r := get_all_cameras st true
    let invalid := camera_ids.filter (fun cid => r.1.all (fun c => c.id ≠ cid))
    if invalid ≠ [] then
      (.err "camera does not exist", r.2)
    else
      let schedule : DetectionSchedule :=
        { id := fresh_id, camera_ids := camera_ids, duration := duration,
          status := "active", start_time := now, end_time := none }
      (.ok fresh_id, { r.2 with schedules := r.2.schedules ++ [schedule] })

/-! The per-schedule control loop (`async_face_detection_loop`, src/app.py
lines 512-564).  The loop state carries the schedule row as the store sees it
plus the history of status values committed to the store, so that claims
about how many terminal statuses are recorded can be stated.  Wall-clock time
is abstracted into a fuel counter (the number of ticks remaining before
`time.time() < end_time` fails) and each tick is driven by an environment
value: whether an external cancellation lands just before the tick re-reads
the status, and whether the tick body raises an unrecoverable exception. -/

/-- Store view of one schedule during its loop, with the ghost history of
status values written to the store. -/
structure LoopState where
  schedule : Option DetectionSchedule
  status_writes : List String
deriving DecidableEq, Repr

/-- Modelled from the spec: `cancel_schedule` is exposed by the core
(spec sections 4.2 and 6) but has no implementation under src/; per the spec
it sets the status to cancelled only if the schedule is currently active and
otherwise fails without writing. -/
def cancel_schedule (st : LoopState) : LoopState :=
  match st.schedule with
  | some sch =>
    if sch.status = "active" then
      { schedule := some { sch with status := "cancelled" },
        status_writes := st.status_writes ++ ["cancelled"] }
    else st
  | none => st

/-- The post-loop block of `async_face_detection_loop` (src/app.py lines
546-551): re-read the schedule and, when it exists, write status completed
with `end_time = now` and commit. -/
def mark_schedule_completed (now : Nat) (st : LoopState) : LoopState :=
  match st.schedule with
  | some sch =>
    { schedule := some { sch with status := "completed", end_time := some now },
      status_writes := st.status_writes ++ ["completed"] }
  | none => st

/-- The except handler of `async_face_detection_loop` (src/app.py lines
555-564): re-read the schedule and, when it exists, write status error and
commit; `end_time` is not touched. -/
def mark_schedule_error (st : LoopState) : LoopState :=
  match st.schedule with
  | some sch =>
    { schedule := some { sch with status := "error" },
      status_writes := st.status_writes ++ ["error"] }
  | none => st

/-- Environment of one tick of the loop. -/
inductive TickEnv where
  | normal
  | cancelRequested
  | crash
deriving DecidableEq, Repr

/-- `async_face_detection_loop` (src/app.py lines 512-564).  `fuel` is the
number of loop iterations that fit before `time.time() < end_time` fails;
`envs` supplies each tick's environment in order (exhausted entries default
to normal).  Each iteration re-reads the schedule from the store and breaks
when it is gone or no longer active; the batch processing and socket emits of
lines 527-544 do not touch the schedule row, so a normal tick leaves the loop
state unchanged; a crash tick raises into the except handler.  Whichever way
the while loop exits, control reaches the post-loop completion block. -/
def async_face_detection_loop (now : Nat) :
    Nat → List TickEnv → LoopState → LoopState
  | 0, _, st => mark_schedule_completed now st
  | fuel + 1, envs, st =>
    let env := envs.headD .normal
    let st1 := if env = .cancelRequested then cancel_schedule st else st
    match st1.schedule with
    | none => mark_schedule_completed now st1
    | some sch =>
      if sch.status = "active" then
        if env = .crash then mark_schedule_error st1
        else async_face_detection_loop now fuel envs.tail st1
      else mark_schedule_completed now st1

/-- `ScheduleResp.err` discriminator: did the endpoint answer with a 400
validation error. -/
def ScheduleResp.isErr : ScheduleResp → Bool
  | .err _ => true
  | .ok _ => false

/-! Concrete fixtures used by witnesses and counterexamples. -/

/-- A third concrete camera row. -/
def cam3 : Camera :=
  { id := "cam_3", name := "Camera 3", ip := "192.168.1.4",
    location := "Area 1", status := "offline" }

/-- Stream state with two registered cameras and no active stream. -/
def streamStateEmpty : StreamState :=
  { cameras := [cam1, cam2], active_streams := [], sessions := [] }

/-- Stream state with three registered cameras and no active stream. -/
def streamStateEmpty3 : StreamState :=
  { cameras := [cam1, cam2, cam3], active_streams := [], sessions := [] }

/-- A configuration with stream capacity 1, for the race counterexample. -/
def cfg1 : Config := { MAX_CAMERAS_STREAM := 1, MAX_CAMERAS_DETECTION := 20 }

/-- A configuration with stream capacity 2, for the admission count witness. -/
def cfg2 : Config := { MAX_CAMERAS_STREAM := 2, MAX_CAMERAS_DETECTION := 20 }

/-- Two fresh concurrent `start_camera_stream` calls on distinct cameras. -/
def pending0 : List PendingStart :=
  [PendingStart.mk0 "cam_1" "sess-a", PendingStart.mk0 "cam_2" "sess-b"]

/-- A concrete successful detection payload for camera cam_2. -/
def r0 : DetectionResultDict :=
  { camera_id := "cam_2", timestamp := 100,
    image_path := "/static/detections/cam_2_100_schedule_1.jpg",
    faces_count := 1, schedule_id := some "schedule_1" }

/-- A batch oracle where cam_2 detects a face and every other camera finds
nothing. -/
def raw0 : String → RawOutcome :=
  fun cid => if cid = "cam_2" then .detected r0 else .noDetection

/-- A batch oracle where cam_1 raises and cam_2 detects a face. -/
def raw1 : String → RawOutcome :=
  fun cid =>
    if cid = "cam_1" then .raised
    else if cid = "cam_2" then .detected r0 else .noDetection

/-- Schedule-endpoint state whose store knows cam_1 and cam_2 but whose warm
camera cache is stale and only holds cam_1. -/
def schedState0 : SchedAppState :=
  { cameras := [cam1, cam2], cameras_all_cache := some [cam1], schedules := [] }

/-- A freshly created active schedule over cam_1, as `schedule_detection`
persists it. -/
def sched0 : DetectionSchedule :=
  { id := "schedule_1", camera_ids := ["cam_1"], duration := 1,
    status := "active", start_time := 0, end_time := none }

/-- Loop state holding the freshly created schedule. -/
def loopState0 : LoopState := { schedule := some sched0, status_writes := [] }

/-- A concrete detection row for witnesses. -/
def row0 : DetectionRow :=
  { camera_id := "cam_2", timestamp := 100,
    image_path := "/static/detections/cam_2_100_schedule_1.jpg",
    faces_count := 1, test_mode := false, real_camera := false,
    schedule_id := some "schedule_1" }

/-- A detection state whose cache is warm with a stale page 1 listing. -/
def detState0 : DetState :=
  { detections := [row0],
    cache := { detection_pages := [(1, [])], detection_count := some 0 } }

/-! ### Theorems -/

/-- C1: `create_schedule` followed by `cancel_schedule` must never end with
status completed, and exactly one terminal status may ever be recorded.  The
code violates this: after the loop observes the externally written cancelled
status and breaks (src/app.py lines 521-524), the post-loop block (lines
546-551) unconditionally overwrites the status with completed, so the
cancelled schedule ends completed and two terminal statuses are recorded.
This run evaluates the loop on a fresh active schedule that is cancelled
before the first tick's status check, with three ticks of budget left. -/
theorem C1_cancelled_schedule_overwritten_to_completed :
    ((async_face_detection_loop 60 3 [TickEnv.cancelRequested] loopState0).schedule.map
        (fun sch => sch.status)) = some "completed"
    ∧ (async_face_detection_loop 60 3 [TickEnv.cancelRequested] loopState0).status_writes
        = ["cancelled", "completed"] := by
  decide

/-- C2 counterexample: starting a stream for a camera that already holds a
slot succeeds and leaves the active-stream set unchanged, but it appends a
second StreamSession record (src/services.py lines 198-204 run
unconditionally), so the claim that no second StreamSession is created is
false at this input. -/
theorem C2_counterexample :
    (start_camera_stream Config.default streamStateHolding "cam_1" "sess-2").1 = true
    ∧ (start_camera_stream Config.default streamStateHolding "cam_1" "sess-2").2.active_streams
        = ["cam_1"]
    ∧ (start_camera_stream Config.default streamStateHolding "cam_1" "sess-2").2.sessions.length
        = 2
    ∧ ¬ (start_camera_stream Config.default streamStateHolding "cam_1" "sess-2").2.sessions
        = streamStateHolding.sessions := by
  decide

/-- C2 amended: for every existing camera that already holds a slot,
`start_camera_stream` succeeds and leaves the active-stream set unchanged, but
it creates one additional StreamSession record on every such call. -/
theorem C2_amended (cfg : Config) (s : StreamState) (cid sid : String)
    (hex : camera_exists s cid = true) (hmem : cid ∈ s.active_streams) :
    start_camera_stream cfg s cid sid =
      (true, { s with sessions := s.sessions ++
        [{ camera_id := cid, session_id := sid, ended_at := none,
           status := "active" }] }) := by
  simp [start_camera_stream, hex, hmem]

/-- C2 amended, witnessed on the concrete state where cam_1 already holds a
slot. -/
theorem C2_amended_witness :
    start_camera_stream Config.default streamStateHolding "cam_1" "sess-9" =
      (true, { streamStateHolding with sessions := streamStateHolding.sessions ++
        [{ camera_id := "cam_1", session_id := "sess-9", ended_at := none,
           status := "active" }] }) :=
  C2_amended Config.default streamStateHolding "cam_1" "sess-9" (by decide) (by decide)

/-- Every camera whose task produced a detection payload contributes that
payload to the batch result (no timeout case). -/
theorem mem_process_of_detected (raw : String → RawOutcome) (ids : List String)
    (cid : String) (r : DetectionResultDict) (hmem : cid ∈ ids)
    (hdet : raw cid = .detected r) :
    r ∈ process_multiple_cameras_async raw false ids := by
  unfold process_multiple_cameras_async
  simp only [Bool.false_eq_true, if_false, List.mem_filterMap, List.mem_map]
  exact ⟨some r, ⟨cid, hmem, by rw [hdet]; rfl⟩, rfl⟩

/-- C3 counterexample: with two cameras where only cam_2 detects a face, the
batch returns a 1-element list, not a list sized like the input with None in
the failed slot; and when the deadline expires the batch returns the empty
list, discarding the result cam_2 had produced; so the claim is false at this
input. -/
theorem C3_counterexample :
    (process_multiple_cameras_async raw0 false ["cam_1", "cam_2"]).length = 1
    ∧ ¬ (process_multiple_cameras_async raw0 false ["cam_1", "cam_2"]).length
        = ["cam_1", "cam_2"].length
    ∧ process_multiple_cameras_async raw0 true ["cam_1", "cam_2"] = [] := by
  decide

/-- C3 amended: `process_multiple_cameras_async` returns only the successful
results: at most one entry per input camera (so the result is at most as long
as the input, not equal), every camera whose task produced a payload is
represented, and when the batch deadline expires the empty list is returned,
discarding all partial results. -/
theorem C3_amended (raw : String → RawOutcome) (ids : List String) :
    process_multiple_cameras_async raw true ids = []
    ∧ (process_multiple_cameras_async raw false ids).length ≤ ids.length
    ∧ ∀ cid ∈ ids, ∀ r, raw cid = .detected r →
        r ∈ process_multiple_cameras_async raw false ids := by
  refine ⟨rfl, ?_, ?_⟩
  · unfold process_multiple_cameras_async
    simp only [Bool.false_eq_true, if_false]
    calc ((ids.map (fun cid => process_camera_frame_async (raw cid))).filterMap id).length
        ≤ (ids.map (fun cid => process_camera_frame_async (raw cid))).length :=
          List.length_filterMap_le _ _
      _ = ids.length := List.length_map _ _
  · intro cid hmem r hdet
    exact mem_process_of_detected raw ids cid r hmem hdet

/-- C3 amended, witnessed on the two-camera batch where only cam_2 detects. -/
theorem C3_amended_witness :
    process_multiple_cameras_async raw0 true ["cam_1", "cam_2"] = []
    ∧ r0 ∈ process_multiple_cameras_async raw0 false ["cam_1", "cam_2"] :=
  ⟨(C3_amended raw0 ["cam_1", "cam_2"]).1,
   (C3_amended raw0 ["cam_1", "cam_2"]).2.2 "cam_2" (by decide) r0 (by decide)⟩

/-- C10: `save_detection_result` is atomic with respect to the cache: when the
commit fails the session is rolled back (the detections table is unchanged),
False is returned, and the cache is untouched; when the commit succeeds True
is returned, exactly the one new row is appended, and the detection-listing
cache keys are invalidated. -/
theorem C10_save_atomicity (st : DetState) (cid : String) (ts : Nat)
    (ip : String) (fc : Nat) (tm rc : Bool) (sid : Option String) :
    save_detection_result false st cid ts ip fc tm rc sid = (false, st)
    ∧ (save_detection_result true st cid ts ip fc tm rc sid).1 = true
    ∧ (save_detection_result true st cid ts ip fc tm rc sid).2.detections
        = st.detections ++
          [{ camera_id := cid, timestamp := ts, image_path := ip,
             faces_count := fc, test_mode := tm, real_camera := rc,
             schedule_id := sid }]
    ∧ (save_detection_result true st cid ts ip fc tm rc sid).2.cache.detection_pages
        = []
    ∧ (save_detection_result true st cid ts ip fc tm rc sid).2.cache.detection_count
        = none :=
  ⟨rfl, rfl, rfl, rfl, rfl⟩

/-- At capacity, a `start_camera_stream` call for an existing camera without a
slot is denied and leaves the state unchanged. -/
theorem start_denied (cfg : Config) (s : StreamState) (cid sid : String)
    (hex : camera_exists s cid = true) (hnm : cid ∉ s.active_streams)
    (hge : cfg.MAX_CAMERAS_STREAM ≤ s.active_streams.length) :
    start_camera_stream cfg s cid sid = (false, s) := by
  simp [start_camera_stream, hex, hnm, hge]

/-- Below capacity, a `start_camera_stream` call for an existing camera
without a slot reserves the slot and appends exactly one session. -/
theorem start_admitted (cfg : Config) (s : StreamState) (cid sid : String)
    (hex : camera_exists s cid = true) (hnm : cid ∉ s.active_streams)
    (hlt : s.active_streams.length < cfg.MAX_CAMERAS_STREAM) :
    start_camera_stream cfg s cid sid =
      (true, { s with
                 active_streams := s.active_streams ++ [cid],
                 sessions := s.sessions ++
                   [{ camera_id := cid, session_id := sid, ended_at := none,
                      status := "active" }] }) := by
  have h2 : ¬ cfg.MAX_CAMERAS_STREAM ≤ s.active_streams.length := Nat.not_le.mpr hlt
  simp [start_camera_stream, hex, hnm, h2]

/-- One atomic `start_camera_stream` call preserves the capacity bound on the
active-stream set. -/
theorem start_active_length_le (cfg : Config) (s : StreamState) (cid sid : String)
    (h : s.active_streams.length ≤ cfg.MAX_CAMERAS_STREAM) :
    (start_camera_stream cfg s cid sid).2.active_streams.length
      ≤ cfg.MAX_CAMERAS_STREAM := by
  by_cases hex : camera_exists s cid = true
  · by_cases hmem : cid ∈ s.active_streams
    · simp [start_camera_stream, hex, hmem]
      exact h
    · by_cases hge : cfg.MAX_CAMERAS_STREAM ≤ s.active_streams.length
      · rw [start_denied cfg s cid sid hex hmem hge]
        exact h
      · have hlt := Nat.lt_of_not_le hge
        rw [start_admitted cfg s cid sid hex hmem hlt]
        simp only [List.length_append, List.length_cons, List.length_nil]
        omega
  · simp [start_camera_stream, hex]
    exact h

/-- Any atomic stream request preserves the capacity bound. -/
theorem apply_stream_op_active_le (cfg : Config) (now : Nat) (s : StreamState)
    (op : StreamOp) (h : s.active_streams.length ≤ cfg.MAX_CAMERAS_STREAM) :
    (apply_stream_op cfg now s op).active_streams.length
      ≤ cfg.MAX_CAMERAS_STREAM := by
  cases op with
  | start cid sid => exact start_active_length_le cfg s cid sid h
  | stop cid =>
    simp only [apply_stream_op, stop_camera_stream]
    exact le_trans (List.length_filter_le _ _) h

/-- Sequentially executed stream requests keep the active-stream count within
capacity. -/
theorem run_stream_ops_active_le (cfg : Config) (now : Nat) :
    ∀ (ops : List StreamOp) (s : StreamState),
      s.active_streams.length ≤ cfg.MAX_CAMERAS_STREAM →
      (run_stream_ops cfg now s ops).active_streams.length
        ≤ cfg.MAX_CAMERAS_STREAM := by
  intro ops
  induction ops with
  | nil => intro s h; exact h
  | cons op rest ih =>
    intro s h
    exact ih _ (apply_stream_op_active_le cfg now s op h)

/-- `start_camera_stream` never modifies the cameras table. -/
theorem start_cameras_eq (cfg : Config) (s : StreamState) (cid sid : String) :
    (start_camera_stream cfg s cid sid).2.cameras = s.cameras := by
  unfold start_camera_stream
  split
  · rfl
  · split
    · rfl
    · rfl

/-- Sequential admission count: for pairwise-distinct existing cameras that do
not yet hold a slot, the number of successful `start_camera_stream` calls is
exactly the number of free slots or the number of requests, whichever is
smaller. -/
theorem run_starts_count (cfg : Config) :
    ∀ (ids : List String) (s : StreamState), ids.Nodup →
      (∀ cid ∈ ids, camera_exists s cid = true) →
      (∀ cid ∈ ids, cid ∉ s.active_streams) →
      s.active_streams.length ≤ cfg.MAX_CAMERAS_STREAM →
      (run_starts cfg s ids).1 =
        min ids.length (cfg.MAX_CAMERAS_STREAM - s.active_streams.length) := by
  intro ids
  induction ids with
  | nil => intro s _ _ _ _; simp [run_starts]
  | cons cid rest ih =>
    intro s hnd hex hnm hle
    have hcid_ex : camera_exists s cid = true := hex cid (List.mem_cons_self cid rest)
    have hcid_nm : cid ∉ s.active_streams := hnm cid (List.mem_cons_self cid rest)
    by_cases hge : cfg.MAX_CAMERAS_STREAM ≤ s.active_streams.length
    · have hz : cfg.MAX_CAMERAS_STREAM - s.active_streams.length = 0 :=
        Nat.sub_eq_zero_of_le hge
      rw [run_starts, start_denied cfg s cid cid hcid_ex hcid_nm hge]
      have hrest := ih s (List.Nodup.of_cons hnd)
        (fun c hc => hex c (List.mem_cons_of_mem cid hc))
        (fun c hc => hnm c (List.mem_cons_of_mem cid hc)) hle
      simp only [hrest, hz, Nat.min_zero, List.length_cons]
      rfl
    · have hlt := Nat.lt_of_not_le hge
      rw [run_starts, start_admitted cfg s cid cid hcid_ex hcid_nm hlt]
      have hhead : cid ∉ rest := (List.nodup_cons.mp hnd).1
      have hrest := ih
        { s with
            active_streams := s.active_streams ++ [cid],
            sessions := s.sessions ++
              [{ camera_id := cid, session_id := cid, ended_at := none,
                 status := "active" }] }
        (List.Nodup.of_cons hnd)
        (fun c hc => hex c (List.mem_cons_of_mem cid hc))
        (fun c hc => by
          simp only [List.mem_append, List.mem_singleton, not_or]
          exact ⟨hnm c (List.mem_cons_of_mem cid hc),
                 fun hcc => hhead (hcc ▸ hc)⟩)
        (by simp only [List.length_append, List.length_cons, List.length_nil]; omega)
      simp only [List.length_append, List.length_cons, List.length_nil] at hrest
      simp only [List.length_cons]
      rw [if_pos trivial, hrest]
      omega

/-- C4 counterexample: with capacity 1 and two concurrent
`start_camera_stream` calls on distinct existing cameras, the interleaving in
which both capacity checks run before either reservation admits both calls:
the active-stream count reaches 2, exceeding the cap, and 2 calls succeed
where the claim requires exactly 1; so the claim is false at this input. -/
theorem C4_counterexample :
    (run_interleaving cfg1 [0, 1, 0, 1] (streamStateEmpty, pending0)).1.active_streams.length
        = 2
    ∧ cfg1.MAX_CAMERAS_STREAM
        < (run_interleaving cfg1 [0, 1, 0, 1] (streamStateEmpty, pending0)).1.active_streams.length
    ∧ ((run_interleaving cfg1 [0, 1, 0, 1] (streamStateEmpty, pending0)).2.map
        (fun t => t.result)) = [some true, some true] := by
  decide

/-- C4 amended: when each `start_camera_stream` / `stop_camera_stream` call
executes atomically (no interleaving inside a call), the active-stream count
never exceeds MaxStreams (and, being a set size, never goes negative), and N
sequential starts on distinct existing fresh cameras admit exactly
min(N, free slots) of them; because the capacity check and the reservation
are separate unsynchronized steps in the code, an interleaving of concurrent
calls can exceed MaxStreams. -/
theorem C4_amended :
    (∀ (cfg : Config) (now : Nat) (s : StreamState) (ops : List StreamOp),
      s.active_streams.length ≤ cfg.MAX_CAMERAS_STREAM →
      (run_stream_ops cfg now s ops).active_streams.length
        ≤ cfg.MAX_CAMERAS_STREAM)
    ∧ (∀ (cfg : Config) (s : StreamState) (ids : List String), ids.Nodup →
      (∀ cid ∈ ids, camera_exists s cid = true) →
      (∀ cid ∈ ids, cid ∉ s.active_streams) →
      s.active_streams.length ≤ cfg.MAX_CAMERAS_STREAM →
      (run_starts cfg s ids).1 =
        min ids.length (cfg.MAX_CAMERAS_STREAM - s.active_streams.length)) :=
  ⟨fun cfg now s ops => run_stream_ops_active_le cfg now ops s,
   fun cfg s ids => run_starts_count cfg ids s⟩

/-- C4 amended, witnessed: a start-stop-start sequence stays within the
default capacity, and three sequential starts on distinct cameras under
capacity 2 admit exactly 2. -/
theorem C4_amended_witness :
    (run_stream_ops Config.default 0 streamStateEmpty
        [StreamOp.start "cam_1" "sess-a", StreamOp.stop "cam_1",
         StreamOp.start "cam_2" "sess-b"]).active_streams.length
      ≤ Config.default.MAX_CAMERAS_STREAM
    ∧ (run_starts cfg2 streamStateEmpty3 ["cam_1", "cam_2", "cam_3"]).1
        = min 3 (cfg2.MAX_CAMERAS_STREAM - 0) :=
  ⟨C4_amended.1 Config.default 0 streamStateEmpty
      [StreamOp.start "cam_1" "sess-a", StreamOp.stop "cam_1",
       StreamOp.start "cam_2" "sess-b"] (by decide),
   C4_amended.2 cfg2 streamStateEmpty3 ["cam_1", "cam_2", "cam_3"]
      (by decide) (by decide) (by decide) (by decide)⟩

/-- C5: for an existing camera without a slot, `start_camera_stream` at
capacity fails and leaves both the active-stream set and the sessions table
unchanged; below capacity it reserves the slot and creates exactly one
StreamSession. -/
theorem C5_admission (cfg : Config) (s : StreamState) (cid sid : String)
    (hex : camera_exists s cid = true) (hnm : cid ∉ s.active_streams) :
    (cfg.MAX_CAMERAS_STREAM ≤ s.active_streams.length →
      start_camera_stream cfg s cid sid = (false, s))
    ∧ (s.active_streams.length < cfg.MAX_CAMERAS_STREAM →
      start_camera_stream cfg s cid sid =
        (true, { s with
                   active_streams := s.active_streams ++ [cid],
                   sessions := s.sessions ++
                     [{ camera_id := cid, session_id := sid, ended_at := none,
                        status := "active" }] })) :=
  ⟨fun hge => start_denied cfg s cid sid hex hnm hge,
   fun hlt => start_admitted cfg s cid sid hex hnm hlt⟩

/-- C5, witnessed on both sides: denial at capacity 1 with cam_1 streaming,
admission from the empty state. -/
theorem C5_admission_witness :
    start_camera_stream cfg1 streamStateHolding "cam_2" "sess-2"
        = (false, streamStateHolding)
    ∧ start_camera_stream Config.default streamStateEmpty "cam_1" "sess-a"
        = (true, { streamStateEmpty with
                     active_streams := ["cam_1"],
                     sessions :=
                       [{ camera_id := "cam_1", session_id := "sess-a",
                          ended_at := none, status := "active" }] }) :=
  ⟨(C5_admission cfg1 streamStateHolding "cam_2" "sess-2"
      (by decide) (by decide)).1 (by decide),
   by
     have h := (C5_admission Config.default streamStateEmpty "cam_1" "sess-a"
       (by decide) (by decide)).2 (by decide)
     simpa using h⟩

/-- The invalid-camera filter of `schedule_detection` is non-empty exactly
when some requested camera id is absent from the camera map it is checked
against. -/
theorem filter_missing_ne_nil_iff (dict : List Camera) (ids : List String) :
    ids.filter (fun cid => dict.all (fun c => c.id ≠ cid)) ≠ [] ↔
      ∃ cid ∈ ids, ∀ c ∈ dict, c.id ≠ cid := by
  rw [Ne, List.filter_eq_nil_iff]
  push_neg
  constructor
  · rintro ⟨cid, hmem, hp⟩
    exact ⟨cid, hmem, by simpa [List.all_eq_true] using hp⟩
  · rintro ⟨cid, hmem, hall⟩
    exact ⟨cid, hmem, by simpa [List.all_eq_true] using hall⟩

/-- C6 counterexample: the store knows cam_2, the request is non-empty, small
enough, and has a valid duration, yet `schedule_detection` rejects it because
the warm camera cache is stale and only lists cam_1; so the claim that a
camera present in the Store is never rejected due to a stale cache is false
at this input. -/
theorem C6_counterexample :
    (schedule_detection Config.default schedState0 ["cam_2"] 60 "schedule_1" 0).1.isErr
        = true
    ∧ schedState0.cameras.any (fun c => c.id = "cam_2") = true
    ∧ ¬ (["cam_2"] = ([] : List String))
    ∧ ["cam_2"].length ≤ Config.default.MAX_CAMERAS_DETECTION
    ∧ (1 : Int) ≤ 60 ∧ (60 : Int) ≤ 120 := by
  decide

/-- C6 amended: `schedule_detection` rejects with a validation error exactly
when the camera list is empty, its size exceeds MaxDetectionCameras, the
duration lies outside 1..120, or some camera id is absent from the camera map
returned by the cache-first `get_all_cameras` lookup (the warm non-empty
cached map when one is present, the Store otherwise); because the lookup is
cache-first, a camera present in the Store can be rejected when the cached
map is stale. -/
theorem C6_amended (cfg : Config) (st : SchedAppState) (ids : List String)
    (dur : Int) (fid : String) (now : Nat) :
    (schedule_detection cfg st ids dur fid now).1.isErr = true ↔
      (ids = [] ∨ cfg.MAX_CAMERAS_DETECTION < ids.length
        ∨ (dur < 1 ∨ 120 < dur)
        ∨ ∃ cid ∈ ids, ∀ c ∈ (get_all_cameras st true).1, c.id ≠ cid) := by
  by_cases h1 : ids = []
  · simp [schedule_detection, h1, ScheduleResp.isErr]
  · by_cases h2 : cfg.MAX_CAMERAS_DETECTION < ids.length
    · simp [schedule_detection, h1, h2, ScheduleResp.isErr]
    · by_cases h3 : dur < 1 ∨ 120 < dur
      · simp [schedule_detection, h1, h2, h3, ScheduleResp.isErr]
      · by_cases h4 : ids.filter
            (fun cid => (get_all_cameras st true).1.all (fun c => c.id ≠ cid)) ≠ []
        · have hex2 := (filter_missing_ne_nil_iff _ _).mp h4
          simp [schedule_detection, h1, h2, h3, h4, ScheduleResp.isErr, hex2]
        · rw [not_not] at h4
          have hne : ¬ ∃ cid ∈ ids, ∀ c ∈ (get_all_cameras st true).1, c.id ≠ cid :=
            fun hx => (filter_missing_ne_nil_iff _ _).mpr hx h4
          simp [schedule_detection, h1, h2, h3, h4, ScheduleResp.isErr, hne]

/-- C6 amended, witnessed: the stale-cache state rejects the request for
cam_2 through the right-to-left direction of the characterisation. -/
theorem C6_amended_witness :
    (schedule_detection Config.default schedState0 ["cam_2"] 60 "schedule_1" 0).1.isErr
      = true :=
  (C6_amended Config.default schedState0 ["cam_2"] 60 "schedule_1" 0).mpr
    (Or.inr (Or.inr (Or.inr ⟨"cam_2", by decide, by decide⟩)))

/-- C7 counterexample: when a tick raises an unrecoverable exception, the
except handler records the terminal status error but does not set end_time
(src/app.py lines 558-563 set only the status), so the claim that end_time is
set whenever the status is terminal is false at this input. -/
theorem C7_counterexample :
    ((async_face_detection_loop 60 2 [TickEnv.crash] loopState0).schedule.map
        (fun sch => sch.status)) = some "error"
    ∧ ((async_face_detection_loop 60 2 [TickEnv.crash] loopState0).schedule.map
        (fun sch => sch.end_time)) = some none := by
  decide

/-- C7 amended: for a schedule that starts its loop active with no end_time,
the loop leaves end_time set exactly when the final status is completed: the
post-loop completion write sets it, while the error transition records the
terminal status error without setting end_time (and a cancelled status is
itself overwritten by the completion write before the loop returns). -/
theorem C7_amended (now : Nat) :
    ∀ (fuel : Nat) (envs : List TickEnv) (sch : DetectionSchedule)
      (w : List String), sch.status = "active" → sch.end_time = none →
      ∃ sch2,
        (async_face_detection_loop now fuel envs
            { schedule := some sch, status_writes := w }).schedule = some sch2
        ∧ (sch2.end_time.isSome = true ↔ sch2.status = "completed") := by
  intro fuel
  induction fuel with
  | zero =>
    intro envs sch w hact hend
    exact ⟨{ sch with status := "completed", end_time := some now }, rfl, by simp⟩
  | succ n ih =>
    intro envs sch w hact hend
    by_cases hc : envs.head?.getD TickEnv.normal = TickEnv.cancelRequested
    · refine ⟨{ sch with status := "completed", end_time := some now }, ?_, by simp⟩
      rw [async_face_detection_loop]
      simp [hc, cancel_schedule, hact, mark_schedule_completed]
    · by_cases hcr : envs.head?.getD TickEnv.normal = TickEnv.crash
      · refine ⟨{ sch with status := "error" }, ?_, ?_⟩
        · rw [async_face_detection_loop]
          simp [hc, hcr, hact, mark_schedule_error]
        · show sch.end_time.isSome = true ↔ ("error" : String) = "completed"
          rw [hend]
          decide
      · obtain ⟨sch2, hres, hiff⟩ := ih envs.tail sch w hact hend
        refine ⟨sch2, ?_, hiff⟩
        rw [async_face_detection_loop]
        simpa [hc, hcr, hact] using hres

/-- C7 amended, witnessed on a one-tick run of the fresh schedule. -/
theorem C7_amended_witness :
    ∃ sch2,
      (async_face_detection_loop 60 1 [] loopState0).schedule = some sch2
      ∧ (sch2.end_time.isSome = true ↔ sch2.status = "completed") :=
  C7_amended 60 1 [] sched0 [] rfl rfl

/-- C8: batch isolation: even when one camera's task raises, the batch result
still contains the payload of every camera whose task detected faces, and the
batch output is the same as if the raising task had merely returned no result
(the exception is absorbed by the per-task handler and the
`return_exceptions=True` gather; it never propagates out of the batch
call). -/
theorem C8_batch_isolation (raw : String → RawOutcome) (ids : List String)
    (cbad cok : String) (r : DetectionResultDict)
    (_hbad_mem : cbad ∈ ids) (hbad : raw cbad = .raised)
    (hok_mem : cok ∈ ids) (hok : raw cok = .detected r) :
    r ∈ process_multiple_cameras_async raw false ids
    ∧ process_multiple_cameras_async raw false ids
        = process_multiple_cameras_async
            (fun cid => if cid = cbad then .noDetection else raw cid) false ids := by
  constructor
  · exact mem_process_of_detected raw ids cok r hok_mem hok
  · unfold process_multiple_cameras_async
    simp only [Bool.false_eq_true, if_false]
    congr 1
    apply List.map_congr_left
    intro cid _
    by_cases hcc : cid = cbad
    · rw [hcc, hbad]
      simp [process_camera_frame_async]
    · simp [hcc]

/-- C8, witnessed on the batch where cam_1 raises and cam_2 detects. -/
theorem C8_batch_isolation_witness :
    r0 ∈ process_multiple_cameras_async raw1 false ["cam_1", "cam_2"]
    ∧ process_multiple_cameras_async raw1 false ["cam_1", "cam_2"]
        = process_multiple_cameras_async
            (fun cid => if cid = "cam_1" then .noDetection else raw1 cid) false
            ["cam_1", "cam_2"] :=
  C8_batch_isolation raw1 ["cam_1", "cam_2"] "cam_1" "cam_2" r0
    (by decide) (by decide) (by decide) (by decide)

/-- Descending insertion grows the length by one. -/
theorem length_insert_by_timestamp_desc (d : DetectionRow) (l : List DetectionRow) :
    (insert_by_timestamp_desc d l).length = l.length + 1 := by
  induction l with
  | nil => rfl
  | cons e rest ih =>
    unfold insert_by_timestamp_desc
    split
    · rfl
    · simp [ih]

/-- Sorting by descending timestamp preserves the length. -/
theorem length_sort_by_timestamp_desc (l : List DetectionRow) :
    (sort_by_timestamp_desc l).length = l.length := by
  induction l with
  | nil => rfl
  | cons e rest ih =>
    simp [sort_by_timestamp_desc, length_insert_by_timestamp_desc, ih]

/-- Membership in a descending insertion. -/
theorem mem_insert_by_timestamp_desc (x d : DetectionRow) (l : List DetectionRow) :
    x ∈ insert_by_timestamp_desc d l ↔ x = d ∨ x ∈ l := by
  induction l with
  | nil => simp [insert_by_timestamp_desc]
  | cons e rest ih =>
    unfold insert_by_timestamp_desc
    split
    · simp [List.mem_cons]
    · simp only [List.mem_cons, ih]
      tauto

/-- Sorting by descending timestamp preserves membership. -/
theorem mem_sort_by_timestamp_desc (x : DetectionRow) (l : List DetectionRow) :
    x ∈ sort_by_timestamp_desc l ↔ x ∈ l := by
  induction l with
  | nil => simp [sort_by_timestamp_desc]
  | cons e rest ih =>
    simp [sort_by_timestamp_desc, mem_insert_by_timestamp_desc, ih]

/-- C9: no stale read after a successful write-then-invalidate: once
`save_detection_result` commits and invalidates the detection-listing keys, a
cached read of any listing page returns exactly what a direct database read
returns (whatever stale pages the cache held before are gone), and the page 1
listing sized to cover the table contains the row just written. -/
theorem C9_cache_consistency (st : DetState) (cid : String) (ts : Nat)
    (ip : String) (fc : Nat) (tm rc : Bool) (sid : Option String)
    (page per_page : Nat) :
    (get_detection_results page per_page true
        (save_detection_result true st cid ts ip fc tm rc sid).2).1
      = (get_detection_results page per_page false
        (save_detection_result true st cid ts ip fc tm rc sid).2).1
    ∧ ({ camera_id := cid, timestamp := ts, image_path := ip, faces_count := fc,
         test_mode := tm, real_camera := rc, schedule_id := sid } : DetectionRow)
        ∈ (get_detection_results 1 (st.detections.length + 1) true
            (save_detection_result true st cid ts ip fc tm rc sid).2).1.1 := by
  constructor
  · rfl
  · show ({ camera_id := cid, timestamp := ts, image_path := ip,
            faces_count := fc, test_mode := tm, real_camera := rc,
            schedule_id := sid } : DetectionRow)
      ∈ paginate_items 1 (st.detections.length + 1)
          (sort_by_timestamp_desc (st.detections ++
            [{ camera_id := cid, timestamp := ts, image_path := ip,
               faces_count := fc, test_mode := tm, real_camera := rc,
               schedule_id := sid }]))
    unfold paginate_items
    have hlen : (sort_by_timestamp_desc (st.detections ++
        [{ camera_id := cid, timestamp := ts, image_path := ip,
           faces_count := fc, test_mode := tm, real_camera := rc,
           schedule_id := sid }])).length = st.detections.length + 1 := by
      rw [length_sort_by_timestamp_desc]
      simp
    simp only [Nat.sub_self, Nat.zero_mul, List.drop_zero]
    rw [List.take_of_length_le (le_of_eq hlen)]
    rw [mem_sort_by_timestamp_desc]
    simp

end StreamCameraSecurity

